import Mathlib

/-!
Shallow embedding of the company personnel/project web application
(`app.py`, `db.py`): the relational data it manipulates, the SQL queries it
issues, and its request handlers, together with theorems checking the
specification's claims against this embedding.

Conventions of the embedding:
* database tables are Lean lists of structure values; SQL joins, filters and
  aggregates are translated join-for-join into list operations;
* `ORDER BY` is modelled by a stable insertion sort (`sqlOrderBy`): SQL leaves
  the relative order of rows with equal sort keys unspecified, and this model
  realises one legitimate choice, keeping tied rows in table order;
* Python exceptions that no handler catches are modelled by a `fault` result,
  caught ones by the flash-message redirect the handler produces;
* numeric form/query values are parsed by executable models of Python's
  `int()` / `float()` builtins restricted to plain decimal literals, and
  `NUMERIC` columns are rationals.
-/

namespace CompanyApp

/-! ## Small string and number helpers -/

/-- Digits of a decimal literal folded into a natural number, failing on the
empty list or any non-digit character.  Helper for the `int()`/`float()`
models. -/
def digitsVal? (l : List Char) : Option Nat :=
  if l.isEmpty then none
  else if l.all Char.isDigit then
    some (l.foldl (fun a c => a * 10 + (c.toNat - 48)) 0)
  else none

/-- Model of Python's `int(str)` (and of PostgreSQL's integer input cast) on an
already-stripped string: an optional sign followed by decimal digits.  Returns
`none` where Python raises `ValueError`. -/
def parseInt? (s : String) : Option Int :=
  match s.data with
  | '-' :: rest => (digitsVal? rest).map (fun n => -(n : Int))
  | '+' :: rest => (digitsVal? rest).map (fun n => (n : Int))
  | l => (digitsVal? l).map (fun n => (n : Int))

/-- Python's `str.strip()` (and `int()`'s own stripping): surrounding
whitespace removed.  Implemented structurally on the character list so the
kernel can evaluate it. -/
def pyStrip (s : String) : String :=
  ⟨((s.data.dropWhile Char.isWhitespace).reverse.dropWhile Char.isWhitespace).reverse⟩

/-- ASCII lower-casing of one character (the fragment of `str.lower()` /
SQL `ILIKE` case folding these inputs use). -/
def lowerChar (c : Char) : Char :=
  if 65 ≤ c.toNat ∧ c.toNat ≤ 90 then Char.ofNat (c.toNat + 32) else c

/-- ASCII `str.lower()`. -/
def lowerStr (s : String) : String := ⟨s.data.map lowerChar⟩

/-- Strict code-point comparison of character lists: the model of the SQL
text ordering (`C` collation) used by every `ORDER BY` on a text column. -/
def strLtL : List Char → List Char → Bool
  | [], [] => false
  | [], _ :: _ => true
  | _ :: _, [] => false
  | a :: as, b :: bs =>
    if a.toNat < b.toNat then true
    else if b.toNat < a.toNat then false
    else strLtL as bs

/-- Strict text comparison on strings. -/
def strLt (a b : String) : Bool := strLtL a.data b.data

theorem strLtL_asymm (a : List Char) :
    ∀ b, strLtL a b = true → strLtL b a = false := by
  induction a with
  | nil =>
    intro b h
    cases b with
    | nil => simp [strLtL] at h
    | cons y ys => simp [strLtL]
  | cons x xs ih =>
    intro b h
    cases b with
    | nil => simp [strLtL] at h
    | cons y ys =>
      simp only [strLtL] at h ⊢
      by_cases h1 : x.toNat < y.toNat
      · have h2 : ¬ y.toNat < x.toNat := by omega
        simp [h1, h2]
      · by_cases h2 : y.toNat < x.toNat
        · simp [h1, h2] at h
        · simp only [if_neg h1, if_neg h2] at h ⊢
          exact ih ys h

theorem strLtL_trans (a : List Char) :
    ∀ b c, strLtL a b = true → strLtL b c = true → strLtL a c = true := by
  induction a with
  | nil =>
    intro b c hab hbc
    cases b with
    | nil => simp [strLtL] at hab
    | cons y ys =>
      cases c with
      | nil => simp [strLtL] at hbc
      | cons z zs => simp [strLtL]
  | cons x xs ih =>
    intro b c hab hbc
    cases b with
    | nil => simp [strLtL] at hab
    | cons y ys =>
      cases c with
      | nil => simp [strLtL] at hbc
      | cons z zs =>
        simp only [strLtL] at hab hbc ⊢
        by_cases hxy : x.toNat < y.toNat
        · by_cases hyz : y.toNat < z.toNat
          · have : x.toNat < z.toNat := by omega
            simp [this]
          · by_cases hzy : z.toNat < y.toNat
            · simp [hyz, hzy] at hbc
            · have : x.toNat < z.toNat := by omega
              simp [this]
        · by_cases hyx : y.toNat < x.toNat
          · simp [hxy, hyx] at hab
          · by_cases hyz : y.toNat < z.toNat
            · have : x.toNat < z.toNat := by omega
              simp [this]
            · by_cases hzy : z.toNat < y.toNat
              · simp [hyz, hzy] at hbc
              · have h1 : ¬ x.toNat < z.toNat := by omega
                have h2 : ¬ z.toNat < x.toNat := by omega
                simp only [if_neg hxy, if_neg hyx] at hab
                simp only [if_neg hyz, if_neg hzy] at hbc
                simp only [if_neg h1, if_neg h2]
                exact ih ys zs hab hbc

theorem strLt_asymm (a b : String) (h : strLt a b = true) : strLt b a = false :=
  strLtL_asymm a.data b.data h

theorem strLt_trans (a b c : String) (hab : strLt a b = true)
    (hbc : strLt b c = true) : strLt a c = true :=
  strLtL_trans a.data b.data c.data hab hbc

/-- Unsigned part of a decimal float literal: digits with an optional point,
at least one digit overall (`"12"`, `"12.5"`, `"12."`, `".5"`). -/
def parseFrac? (l : List Char) : Option Rat :=
  let intPart := l.takeWhile Char.isDigit
  let rest := l.dropWhile Char.isDigit
  match rest with
  | [] => (digitsVal? intPart).map (fun n => (n : Rat))
  | '.' :: frac =>
    if frac.all Char.isDigit ∧ (intPart ≠ [] ∨ frac ≠ []) then
      some ((((digitsVal? intPart).getD 0 : Nat) : Rat) +
        (((digitsVal? frac).getD 0 : Nat) : Rat) / ((10 : Rat) ^ frac.length))
    else none
  | _ => none

/-- Model of Python's `float(str)` builtin on plain decimal literals: optional
surrounding whitespace, optional sign, digits with an optional point.  Returns
`none` where Python raises `ValueError` (exponents and the `inf`/`nan` spellings
are outside the fragment this program's inputs use). -/
def parseFloat? (s : String) : Option Rat :=
  match (pyStrip s).data with
  | '-' :: rest => (parseFrac? rest).map (fun q => -q)
  | '+' :: rest => parseFrac? rest
  | l => parseFrac? l

/-- Membership of one character list inside another, used for the SQL
`ILIKE '%pattern%'` substring match. -/
def subList (needle : List Char) : List Char → Bool
  | [] => needle.isEmpty
  | c :: t => needle.isPrefixOf (c :: t) || subList needle t

/-- Case-insensitive substring match: the model of
`haystack ILIKE '%' || needle || '%'`. -/
def ilikeContains (hay needle : String) : Bool :=
  subList (lowerStr needle).data (lowerStr hay).data

/-- Python's `", ".join`, used for the import header error message. -/
def joinComma : List String → String
  | [] => ""
  | [x] => x
  | x :: y :: t => x ++ ", " ++ joinComma (y :: t)

/-! ## Stable sort model of SQL `ORDER BY`

`sqlOrderBy lt l` sorts `l` by the strict comparator `lt`, keeping rows whose
keys tie in their original table order.  SQL itself leaves tie order
unspecified; this is one execution the database is allowed to produce. -/

/-- Insert `x` after every already-placed element that is not strictly greater
than it. -/
def insertS (lt : α → α → Bool) (x : α) : List α → List α
  | [] => [x]
  | y :: ys => if lt x y then x :: y :: ys else y :: insertS lt x ys

/-- Stable insertion sort modelling `ORDER BY` with strict comparator `lt`. -/
def sqlOrderBy (lt : α → α → Bool) (l : List α) : List α :=
  l.foldl (fun acc x => insertS lt x acc) []

theorem insertS_perm (lt : α → α → Bool) (x : α) (l : List α) :
    (insertS lt x l).Perm (x :: l) := by
  induction l with
  | nil => simp [insertS]
  | cons y ys ih =>
    simp only [insertS]
    by_cases h : lt x y
    · simp [h]
    · simp only [h, if_neg]
      exact (ih.cons y).trans (List.Perm.swap x y ys)

theorem sqlOrderBy_aux_perm (lt : α → α → Bool) (l acc : List α) :
    (l.foldl (fun a x => insertS lt x a) acc).Perm (acc ++ l) := by
  induction l generalizing acc with
  | nil => simp
  | cons x xs ih =>
    simp only [List.foldl_cons]
    refine (ih (insertS lt x acc)).trans ?_
    refine (((insertS_perm lt x acc).append_right xs).trans ?_)
    simpa using (List.perm_middle).symm

theorem sqlOrderBy_perm (lt : α → α → Bool) (l : List α) :
    (sqlOrderBy lt l).Perm l := by
  simpa [sqlOrderBy] using sqlOrderBy_aux_perm lt l []

theorem mem_insertS (lt : α → α → Bool) (x z : α) (l : List α) :
    z ∈ insertS lt x l ↔ z = x ∨ z ∈ l := by
  have h3 : z ∈ insertS lt x l ↔ z ∈ x :: l := (insertS_perm lt x l).mem_iff
  rw [h3, List.mem_cons]

/-- The weak order induced by a strict comparator: `b` is not strictly below
`a`. -/
def leOf (lt : α → α → Bool) (a b : α) : Prop := lt b a = false

theorem insertS_pairwise (lt : α → α → Bool)
    (hasymm : ∀ a b, lt a b = true → lt b a = false)
    (htrans : ∀ a b c, lt a b = true → lt b c = true → lt a c = true)
    (x : α) (l : List α) (hl : l.Pairwise (leOf lt)) :
    (insertS lt x l).Pairwise (leOf lt) := by
  induction l with
  | nil => simp [insertS, List.pairwise_singleton]
  | cons y ys ih =>
    rcases List.pairwise_cons.mp hl with ⟨hy, hys⟩
    by_cases h : lt x y
    · simp only [insertS, h, if_pos]
      refine List.pairwise_cons.mpr ⟨?_, hl⟩
      intro z hz
      rcases List.mem_cons.mp hz with rfl | hz
      · exact hasymm _ _ h
      · cases hzx : lt z x with
        | false => exact hzx
        | true =>
          have h1 : lt z y = true := htrans _ _ _ hzx h
          have h2 : lt z y = false := hy z hz
          simp [h1] at h2
    · simp only [insertS, h, if_neg, Bool.false_eq_true, not_false_iff]
      refine List.pairwise_cons.mpr ⟨?_, ih hys⟩
      intro z hz
      rcases (mem_insertS lt x z ys).mp hz with rfl | hz
      · simpa [leOf] using h
      · exact hy z hz

theorem sqlOrderBy_aux_pairwise (lt : α → α → Bool)
    (hasymm : ∀ a b, lt a b = true → lt b a = false)
    (htrans : ∀ a b c, lt a b = true → lt b c = true → lt a c = true)
    (l acc : List α) (hacc : acc.Pairwise (leOf lt)) :
    (l.foldl (fun a x => insertS lt x a) acc).Pairwise (leOf lt) := by
  induction l generalizing acc with
  | nil => simpa
  | cons x xs ih =>
    simp only [List.foldl_cons]
    exact ih _ (insertS_pairwise lt hasymm htrans x acc hacc)

theorem sqlOrderBy_pairwise (lt : α → α → Bool)
    (hasymm : ∀ a b, lt a b = true → lt b a = false)
    (htrans : ∀ a b c, lt a b = true → lt b c = true → lt a c = true)
    (l : List α) : (sqlOrderBy lt l).Pairwise (leOf lt) :=
  sqlOrderBy_aux_pairwise lt hasymm htrans l [] (by simp)

/-! ## Relational data model (schema used by `app.py`) -/

/-- A row of the `Employee` table.  `salary` is the numeric salary column,
nullable columns are `Option`s, and dates are kept as their text form (the
application never computes with them). -/
structure Employee where
  ssn : String
  fname : String
  minit : Option String
  lname : String
  address : String
  sex : String
  salary : Int
  superSsn : Option String
  dno : Option Int
  bdate : Option String
  empdate : Option String
deriving DecidableEq, Repr

/-- A row of the `Department` table. -/
structure Department where
  dnumber : Int
  dname : String
  mgrSsn : Option String
deriving DecidableEq, Repr

/-- A row of the `Works_On` assignment table; `hours` is the `NUMERIC` hours
column, modelled as a rational. -/
structure WorksOn where
  essn : String
  pno : Int
  hours : Rat
deriving DecidableEq, Repr

/-- A row of the `Dependent` table (only its `Essn` key matters to the
queries in `app.py`). -/
structure Dependent where
  essn : String
  depName : String
deriving DecidableEq, Repr

/-- A row of the `app_user` credential table (`SELECT id, password_hash, role`
is what `login` reads). -/
structure AppUser where
  id : String
  username : String
  passwordHash : String
  role : String
deriving DecidableEq, Repr

/-- The database state the handlers read and mutate. -/
structure DB where
  employees : List Employee
  departments : List Department
  worksOn : List WorksOn
  dependents : List Dependent
deriving DecidableEq, Repr

/-! ## Session helpers (`ensure_logged_in`, `current_role`, `is_admin`) -/

/-- The Flask session cookie: the `username` and `role` keys `login` sets. -/
structure Session where
  username : Option String
  role : Option String
deriving DecidableEq, Repr

/-- Model of `ensure_logged_in`: `"username" in session`. -/
def ensure_logged_in (s : Session) : Bool := s.username.isSome

/-- Model of `is_admin`: `session.get("role") == "admin"`. -/
def is_admin (s : Session) : Bool := s.role == some "admin"

/-- Model of `is_viewer`: `session.get("role") == "viewer"`. -/
def is_viewer (s : Session) : Bool := s.role == some "viewer"

/-- Outcome of one request handler: a rendered page carrying the handler's
query result, a plain redirect, a flash message followed by a redirect, or an
uncaught Python exception (Flask's 500 page). -/
inductive HResult (α : Type) where
  | page (val : α)
  | redirect (target : String)
  | flashRedirect (msg : String) (target : String)
  | fault (msg : String)
deriving DecidableEq, Repr

/-- SQL expression `E.Fname || ' ' || COALESCE(E.Minit || ' ', '') || E.Lname`
used by every page that displays a full name. -/
def fullName (e : Employee) : String :=
  e.fname ++ " " ++ (match e.minit with | none => "" | some m => m ++ " ") ++ e.lname

/-! ## Employee overview (`home`) -/

/-- One output row of the employee overview query. -/
structure OverviewRow where
  ssn : String
  fullNameCol : String
  departmentName : Option String
  dependentCount : Nat
  projectCount : Nat
  totalHours : Rat
deriving DecidableEq, Repr

/-- The `dep` subquery of the overview: `COUNT(*)` of `Dependent` rows grouped
by `Essn`, joined on the employee's ssn (`COALESCE(..., 0)` when absent). -/
def dependentCountOf (db : DB) (ssn : String) : Nat :=
  (db.dependents.filter (fun x => x.essn == ssn)).length

/-- The `w` subquery's `COUNT(*)`: assignments grouped by `Essn`. -/
def projectCountOf (db : DB) (ssn : String) : Nat :=
  (db.worksOn.filter (fun w => w.essn == ssn)).length

/-- The `w` subquery's `SUM(Hours)` with `COALESCE(..., 0)`. -/
def totalHoursOf (db : DB) (ssn : String) : Rat :=
  ((db.worksOn.filter (fun w => w.essn == ssn)).map WorksOn.hours).sum

/-- The `LEFT JOIN Department D ON E.Dno = D.Dnumber` lookup of `D.Dname`. -/
def departmentNameOf (db : DB) (e : Employee) : Option String :=
  (db.departments.find? (fun d => e.dno == some d.dnumber)).map Department.dname

/-- An employee row of the overview join before sorting and projection. -/
structure HomeRow where
  e : Employee
  deptName : Option String
  depCount : Nat
  projCount : Nat
  hoursSum : Rat
deriving DecidableEq, Repr

/-- The overview's `WHERE` clause:
`(%s = '' OR (E.Fname || ' ' || E.Lname) ILIKE %s) AND
 (%s::integer IS NULL OR E.Dno = %s::integer)`. -/
def homeWhere (nameFilter : String) (deptFilter : Option Int) (e : Employee) : Bool :=
  (nameFilter == "" || ilikeContains (e.fname ++ " " ++ e.lname) nameFilter) &&
  (deptFilter.isNone || e.dno == deptFilter)

/-- The overview query's joined rows before `ORDER BY`. -/
def homeBaseRows (db : DB) (nameFilter : String) (deptFilter : Option Int) : List HomeRow :=
  (db.employees.filter (homeWhere nameFilter deptFilter)).map (fun e =>
    { e := e
      deptName := departmentNameOf db e
      depCount := dependentCountOf db e.ssn
      projCount := projectCountOf db e.ssn
      hoursSum := totalHoursOf db e.ssn })

/-- The five `ORDER BY` clauses the overview can emit: the four whitelisted
entries of `sort_options` plus the dictionary's default `"E.Lname ASC"`. -/
inductive SortKey where
  | nameAsc | nameDesc | hoursAsc | hoursDesc | lnameAsc
deriving DecidableEq, Repr

/-- Model of `sort_options.get(sort, "E.Lname ASC")`. -/
def sortKeyOf (tok : String) : SortKey :=
  if tok = "name_asc" then .nameAsc
  else if tok = "name_desc" then .nameDesc
  else if tok = "hours_asc" then .hoursAsc
  else if tok = "hours_desc" then .hoursDesc
  else .lnameAsc

/-- Strict row comparator realising each `ORDER BY` clause. -/
def homeLt : SortKey → HomeRow → HomeRow → Bool
  | .nameAsc => fun a b =>
      strLt a.e.lname b.e.lname || (a.e.lname == b.e.lname && strLt a.e.fname b.e.fname)
  | .nameDesc => fun a b =>
      strLt b.e.lname a.e.lname || (a.e.lname == b.e.lname && strLt b.e.fname a.e.fname)
  | .hoursAsc => fun a b => decide (a.hoursSum < b.hoursSum)
  | .hoursDesc => fun a b => decide (b.hoursSum < a.hoursSum)
  | .lnameAsc => fun a b => strLt a.e.lname b.e.lname

/-- Projection of a joined row to the overview's `SELECT` list. -/
def toOverviewRow (r : HomeRow) : OverviewRow :=
  { ssn := r.e.ssn
    fullNameCol := fullName r.e
    departmentName := r.deptName
    dependentCount := r.depCount
    projectCount := r.projCount
    totalHours := r.hoursSum }

/-- Parse of the `dept` query parameter:
`None if dept_filter == "" else int(dept_filter)`; a non-integer non-empty
value makes `int()` raise an uncaught `ValueError`. -/
def deptFilterOf (deptRaw : String) : Except String (Option Int) :=
  let t := pyStrip deptRaw
  if t == "" then .ok none
  else
    match parseInt? t with
    | some n => .ok (some n)
    | none => .error ("ValueError: invalid literal for int() with base 10: " ++ t)

/-- Model of the `home` route (employee overview): login guard, filter
parsing, the overview join, `ORDER BY`, and projection.  The arguments are the
`search`, `dept` and `sort` query parameters after Flask's `.get` defaulting. -/
def home (s : Session) (db : DB) (search deptRaw sortTok : String) :
    HResult (List OverviewRow) :=
  if ensure_logged_in s = false then .redirect "login"
  else
    let nameFilter := pyStrip search
    match deptFilterOf deptRaw with
    | .error m => .fault m
    | .ok deptFilter =>
      .page ((sqlOrderBy (homeLt (sortKeyOf sortTok))
        (homeBaseRows db nameFilter deptFilter)).map toOverviewRow)

/-! ## Project detail page and assignment upsert -/

/-- One row of the assigned-employees listing on the project detail page. -/
structure ProjDetailRow where
  ssn : String
  fullNameCol : String
  dname : String
  hours : Rat
deriving DecidableEq, Repr

/-- The project detail page's assigned-employees query: `Works_On` rows of the
project inner-joined (`JOIN`) to `Employee` on ssn and to `Department` on the
employee's `Dno`, ordered by full name. -/
def project_details_employees (db : DB) (projectId : Int) : List ProjDetailRow :=
  sqlOrderBy (fun a b => strLt a.fullNameCol b.fullNameCol)
    ((db.worksOn.filter (fun w => w.pno == projectId)).flatMap (fun w =>
      (db.employees.filter (fun e => e.ssn == w.essn)).flatMap (fun e =>
        (db.departments.filter (fun d => e.dno == some d.dnumber)).map (fun d =>
          { ssn := e.ssn, fullNameCol := fullName e, dname := d.dname, hours := w.hours }))))

/-- The `INSERT ... ON CONFLICT (Essn, Pno) DO UPDATE SET
Hours = Works_On.Hours + EXCLUDED.Hours` statement of `add_assignment`: if a
row with the key exists it is updated by adding the new hours, otherwise a new
row is appended. -/
def upsertWorksOn (ws : List WorksOn) (essn : String) (pno : Int) (h : Rat) :
    List WorksOn :=
  if ws.any (fun w => w.essn == essn && w.pno == pno) then
    ws.map (fun w =>
      if w.essn == essn && w.pno == pno then { w with hours := w.hours + h } else w)
  else ws ++ [{ essn := essn, pno := pno, hours := h }]

/-- The hours stored for a `(employee, project)` key. -/
def lookupHours (ws : List WorksOn) (essn : String) (pno : Int) : Option Rat :=
  (ws.find? (fun w => w.essn == essn && w.pno == pno)).map WorksOn.hours

/-- Model of the `add_assignment` route: login and admin guards, then
`hours = float(request.form["hours"])` (uncaught `ValueError` on non-numeric
input), then the accumulate-upsert.  Returns the new database state and the
handler outcome. -/
def add_assignment (s : Session) (db : DB) (projectId : Int)
    (essnField hoursField : String) : DB × HResult Unit :=
  if ensure_logged_in s = false then (db, .redirect "login")
  else if is_admin s = false then
    (db, .flashRedirect "Only admin users may modify assignments." "project_details")
  else
    match parseFloat? hoursField with
    | none => (db, .fault ("ValueError: could not convert string to float: " ++ hoursField))
    | some h =>
      ({ db with worksOn := upsertWorksOn db.worksOn essnField projectId h },
        .redirect "project_details")

/-! ## Managers overview -/

/-- One output row of the managers query. -/
structure ManagerRow where
  dname : String
  dnumber : Int
  managerName : String
  empCount : Nat
  totalHours : Rat
deriving DecidableEq, Repr

/-- The rows the chain `Department D LEFT JOIN Employee E ON E.Dno = D.Dnumber
LEFT JOIN Works_On W ON W.Essn = E.Ssn` contributes for one department: one
all-null row when the department has no employees, otherwise one row per
employee and matching assignment (one row with a null assignment for an
employee who has none). -/
def managerJoinRows (db : DB) (d : Department) :
    List (Option Employee × Option WorksOn) :=
  let emps := db.employees.filter (fun e => e.dno == some d.dnumber)
  if emps.isEmpty then [(none, none)]
  else
    emps.flatMap (fun e =>
      let ws := db.worksOn.filter (fun w => w.essn == e.ssn)
      if ws.isEmpty then [(some e, none)] else ws.map (fun w => (some e, some w)))

/-- The `COALESCE(M.Fname || ... || M.Lname, 'N/A')` manager-name column from
`LEFT JOIN Employee M ON D.Mgr_ssn = M.Ssn` (ssn is the `Employee` key, so at
most one row matches). -/
def manager_name (db : DB) (d : Department) : String :=
  match d.mgrSsn with
  | none => "N/A"
  | some ms =>
    match db.employees.find? (fun e => e.ssn == ms) with
    | none => "N/A"
    | some m => fullName m

/-- Model of the `managers` query: for each department (grouped by its key,
ordered by `D.Dnumber`) the manager name, `COUNT(E.Ssn)` over the join rows,
and `COALESCE(SUM(W.Hours), 0)` over the join rows. -/
def managers (db : DB) : List ManagerRow :=
  (sqlOrderBy (fun a b => decide (a.dnumber < b.dnumber)) db.departments).map (fun d =>
    { dname := d.dname
      dnumber := d.dnumber
      managerName := manager_name db d
      empCount := (managerJoinRows db d).countP (fun r => r.1.isSome)
      totalHours := ((managerJoinRows db d).map (fun r =>
        match r.2 with | none => 0 | some w => w.hours)).sum })

/-! ## Authentication (`login`) -/

/-- Model of the `login` route's POST branch.  `checkHash` abstracts the
external `check_password_hash` primitive.  The query
`SELECT id, password_hash, role FROM app_user WHERE username = %s` with
`fetchone` is the first matching row; on failure (`not user or not
check_password_hash(...)`) the single generic message is flashed and the
session is left untouched, otherwise `session["username"] = user[0]` (the id)
and `session["role"] = user[2]` are set. -/
def login (checkHash : String → String → Bool) (users : List AppUser)
    (s : Session) (username password : String) : Session × HResult Unit :=
  match users.find? (fun u => u.username == username) with
  | none => (s, .flashRedirect "Invalid username or password." "login")
  | some u =>
    if checkHash u.passwordHash password = false then
      (s, .flashRedirect "Invalid username or password." "login")
    else
      ({ s with username := some u.id, role := some u.role }, .redirect "home")

/-! ## Employee CRUD -/

/-- Lookup of a submitted form field, modelling `request.form[key]` on a form
that carries the key (the templates always submit every field they render). -/
def formGet (form : List (String × String)) (key : String) : String :=
  ((form.find? (fun kv => kv.1 == key)).map (fun kv => kv.2)).getD ""

/-- Store-side checks of `INSERT INTO Employee (Fname, Minit, Lname, Ssn,
Address, Sex, Salary, Dno) VALUES (...)`: the numeric casts of `Salary` and
`Dno`, the primary-key uniqueness of `Ssn`, and the foreign key `Dno →
Department`.  The three omitted columns (`Super_ssn`, `BDate`, `EmpDate`)
default to NULL.  Any error is a `psycopg.Error` to the caller. -/
def insertEmployeeForm (es : List Employee) (deps : List Department)
    (ssn fname : String) (minit : Option String)
    (lname address sex salaryRaw dnoRaw : String) : Except String (List Employee) :=
  match parseInt? salaryRaw with
  | none => .error ("invalid input syntax for numeric Salary: " ++ salaryRaw)
  | some sal =>
    match parseInt? dnoRaw with
    | none => .error ("invalid input syntax for integer Dno: " ++ dnoRaw)
    | some dn =>
      if es.any (fun x => x.ssn == ssn) then
        .error ("duplicate key value violates unique constraint Employee_pkey: " ++ ssn)
      else if (deps.any (fun d => d.dnumber == dn)) = false then
        .error ("insert violates foreign key constraint on Dno: " ++ dnoRaw)
      else
        .ok (es ++
          [{ ssn := ssn, fname := fname, minit := minit, lname := lname,
             address := address, sex := sex, salary := sal, superSsn := none,
             dno := some dn, bdate := none, empdate := none }])

/-- Model of the `add_employee` route's POST branch: guards, the eight form
fields it reads (`minit` normalised to NULL when empty), the guarded insert,
and the `psycopg.Error` handler that flashes the duplicate-ssn message. -/
def add_employee (s : Session) (db : DB) (form : List (String × String)) :
    DB × HResult Unit :=
  if ensure_logged_in s = false then (db, .redirect "login")
  else if is_admin s = false then
    (db, .flashRedirect "Only admin users may add employees." "employees")
  else
    let minitRaw := formGet form "minit"
    match insertEmployeeForm db.employees db.departments
        (formGet form "ssn") (formGet form "fname")
        (if minitRaw = "" then none else some minitRaw)
        (formGet form "lname") (formGet form "address") (formGet form "sex")
        (formGet form "salary") (formGet form "dno") with
    | .error _ =>
      (db, .flashRedirect "Error adding employee. SSN may already exist." "add_employee")
    | .ok es => ({ db with employees := es }, .redirect "employees")

/-- Model of the `edit_employee` route's POST branch: guards, then an
unguarded `UPDATE Employee SET Address, Salary, Dno WHERE Ssn = %s` (zero rows
affected when the ssn is unknown; a store-side cast or constraint error is an
uncaught exception because this handler has no try block). -/
def edit_employee (s : Session) (db : DB) (ssn address salaryRaw dnoRaw : String) :
    DB × HResult Unit :=
  if ensure_logged_in s = false then (db, .redirect "login")
  else if is_admin s = false then
    (db, .flashRedirect "Only admin users may edit employees." "employees")
  else
    match parseInt? salaryRaw, parseInt? dnoRaw with
    | some sal, some dn =>
      if (db.departments.any (fun d => d.dnumber == dn)) = false ∧
          db.employees.any (fun e => e.ssn == ssn) then
        (db, .fault "psycopg.Error: update violates foreign key constraint on Dno")
      else
        ({ db with employees := db.employees.map (fun e =>
            if e.ssn == ssn then { e with address := address, salary := sal, dno := some dn }
            else e) },
          .redirect "employees")
    | _, _ => (db, .fault "psycopg.Error: invalid input syntax in UPDATE Employee")

/-- Referential uses of an employee that make `DELETE FROM Employee` fail:
assignments, dependents, being a department manager, or being a supervisor. -/
def employeeReferenced (db : DB) (ssn : String) : Bool :=
  db.worksOn.any (fun w => w.essn == ssn) ||
  db.dependents.any (fun x => x.essn == ssn) ||
  db.departments.any (fun d => d.mgrSsn == some ssn) ||
  db.employees.any (fun e => e.superSsn == some ssn)

/-- Model of the `delete_employee` route: guards, then `DELETE FROM Employee
WHERE Ssn = %s` inside a try block whose `psycopg.Error` handler flashes the
referential-integrity message. -/
def delete_employee (s : Session) (db : DB) (ssn : String) : DB × HResult Unit :=
  if ensure_logged_in s = false then (db, .redirect "login")
  else if is_admin s = false then
    (db, .flashRedirect "Only admin users may delete employees." "employees")
  else if employeeReferenced db ssn then
    (db, .flashRedirect
      "Cannot delete employee: They are assigned to projects, have dependents listed, or are a manager/supervisor."
      "employees")
  else
    ({ db with employees := db.employees.filter (fun e => (e.ssn == ssn) = false) },
      .redirect "employees")

/-! ## Excel import (`parse_employee_sheet`, `import_employees`) -/

/-- An openpyxl cell value as `parse_employee_sheet` sees it: an empty cell
(`None`), a text cell, or an integer cell.  These are the value kinds the
program's validation distinguishes. -/
inductive Cell where
  | null
  | str (s : String)
  | int (n : Int)
deriving DecidableEq, Repr

/-- Python truthiness of a cell value, as tested by
`if not (fname and minit and ...)`: `None`, the empty string and the number 0
are falsy. -/
def Cell.truthy : Cell → Bool
  | .null => false
  | .str s => (s == "") = false
  | .int n => (n == 0) = false

/-- Python's `col or ""` used on each header cell. -/
def Cell.orEmpty (c : Cell) : Cell := if c.truthy then c else .str ""

/-- Python's `str(value)` on a cell. -/
def Cell.pyStr : Cell → String
  | .null => "None"
  | .str s => s
  | .int n => toString n

/-- Python's `int(value)` on a cell: identity on integers, a parse of string
cells, an exception (here `none`, caught by the bare `except`) otherwise. -/
def Cell.pyInt : Cell → Option Int
  | .null => none
  | .str s => parseInt? (pyStrip s)
  | .int n => some n

/-- One data row of the uploaded sheet, unpacked exactly as
`(fname, minit, lname, ssn, address, sex, salary, super_ssn, dno, bdate,
empdate) = employee`. -/
structure SheetRow where
  fname : Cell
  minit : Cell
  lname : Cell
  ssn : Cell
  address : Cell
  sex : Cell
  salary : Cell
  superSsn : Cell
  dno : Cell
  bdate : Cell
  empdate : Cell
deriving DecidableEq, Repr

/-- The uploaded worksheet: its first row (the header cells) and its data
rows from row 2 onwards. -/
structure Sheet where
  header : List Cell
  rows : List SheetRow
deriving DecidableEq, Repr

/-- The `expected` header column names. -/
def expectedHeader : List String :=
  ["Fname", "Minit", "Lname", "Ssn", "Address", "Sex", "Salary", "Super_ssn",
   "Dno", "BDate", "EmpDate"]

/-- A validated employee tuple as appended to the `employees` list by
`parse_employee_sheet` (salary and dno already converted by `int`,
`super_ssn` normalised to `None` when falsy). -/
structure ParsedEmp where
  fname : Cell
  minit : Cell
  lname : Cell
  ssn : Cell
  address : Cell
  sex : Cell
  salary : Int
  superSsn : Option Cell
  dno : Int
  bdate : Cell
  empdate : Cell
deriving DecidableEq, Repr

/-- The required-field test `fname and minit and lname and ssn and address
and sex and salary and dno` of a data row. -/
def requiredOk (r : SheetRow) : Bool :=
  r.fname.truthy && r.minit.truthy && r.lname.truthy && r.ssn.truthy &&
  r.address.truthy && r.sex.truthy && r.salary.truthy && r.dno.truthy

/-- The message of the `ValueError` raised by the required-field check. -/
def missingMsg (idx : Nat) : String :=
  "Missing required field on row " ++ toString idx ++ "."

/-- Validation of one data row at 1-based row number `idx`, with the checks in
the order the code performs them. -/
def parseRow (idx : Nat) (r : SheetRow) : Except String ParsedEmp :=
  if requiredOk r = false then .error (missingMsg idx)
  else if ((Cell.pyStr r.minit).length == 1) = false then
    .error ("Minit must be 1 character on row " ++ toString idx ++ ".")
  else if ((Cell.pyStr r.sex).length == 1) = false then
    .error ("Sex must be 1 character on row " ++ toString idx ++ ".")
  else
    match r.salary.pyInt with
    | none => .error ("Salary must be integer on row " ++ toString idx ++ ".")
    | some sal =>
      match r.dno.pyInt with
      | none => .error ("Dno must be integer on row " ++ toString idx ++ ".")
      | some dn =>
        .ok { fname := r.fname, minit := r.minit, lname := r.lname, ssn := r.ssn,
              address := r.address, sex := r.sex, salary := sal,
              superSsn := if r.superSsn.truthy then some r.superSsn else none,
              dno := dn, bdate := r.bdate, empdate := r.empdate }

/-- The `for idx, employee in enumerate(..., start=2)` loop: rows validated in
order, stopping at the first `ValueError`. -/
def parseRows : Nat → List SheetRow → Except String (List ParsedEmp)
  | _, [] => .ok []
  | idx, r :: rs =>
    match parseRow idx r with
    | .error m => .error m
    | .ok p =>
      match parseRows (idx + 1) rs with
      | .error m => .error m
      | .ok ps => .ok (p :: ps)

/-- Model of `parse_employee_sheet`: the exact-header check on
`[col or "" for col in cols]`, then the row loop numbered from 2. -/
def parse_employee_sheet (sheet : Sheet) : Except String (List ParsedEmp) :=
  if (sheet.header.map Cell.orEmpty == expectedHeader.map Cell.str) = false then
    .error ("Header must be exactly: " ++ joinComma expectedHeader)
  else parseRows 2 sheet.rows

/-- The `Employee` row the 11-column `INSERT` of the import produces from a
parsed tuple (PostgreSQL receives each cell's value; nullable columns get
NULL from `None` cells). -/
def ParsedEmp.toEmployee (p : ParsedEmp) : Employee :=
  { ssn := p.ssn.pyStr
    fname := p.fname.pyStr
    minit := some p.minit.pyStr
    lname := p.lname.pyStr
    address := p.address.pyStr
    sex := p.sex.pyStr
    salary := p.salary
    superSsn := p.superSsn.map Cell.pyStr
    dno := some p.dno
    bdate := match p.bdate with | .null => none | c => some c.pyStr
    empdate := match p.empdate with | .null => none | c => some c.pyStr }

/-- One `INSERT INTO Employee` of the import loop: fails on a duplicate
primary key (`psycopg` raises, which aborts the surrounding transaction). -/
def insertOne (es : List Employee) (p : ParsedEmp) : Except String (List Employee) :=
  if es.any (fun x => x.ssn == p.toEmployee.ssn) then
    .error ("duplicate key value violates unique constraint Employee_pkey: " ++
      p.toEmployee.ssn)
  else .ok (es ++ [p.toEmployee])

/-- The import's insert loop, threading the partially-inserted state and
stopping at the first error.  `import_employees` discards the partial state on
error because the loop runs inside a single `with get_db_connection()`
transaction, which psycopg rolls back when the block exits by exception. -/
def insertAll (es : List Employee) : List ParsedEmp → Except String (List Employee)
  | [] => .ok es
  | p :: ps =>
    match insertOne es p with
    | .error m => .error m
    | .ok es2 => insertAll es2 ps

/-- An uploaded file: its filename and either the loaded worksheet or an
unreadable workbook (`load_workbook` raised). -/
structure Upload where
  filename : String
  content : Except Unit Sheet

/-- The `.lower().endswith(".xlsx")` extension check. -/
def endsWithXlsx (filename : String) : Bool :=
  List.isSuffixOf ".xlsx".data (lowerStr filename).data

/-- Model of the `import_employees` route's POST branch: guards, file checks,
workbook load, parse (flashing the `ValueError` text on failure), then the
transactional batch insert (flashing the `Import failed` message and keeping
the store unchanged on failure, per the rollback of the connection's
transaction). -/
def import_employees (s : Session) (db : DB) (upload : Option Upload) :
    DB × HResult Unit :=
  if ensure_logged_in s = false then (db, .redirect "login")
  else if is_admin s = false then
    (db, .flashRedirect "Only admin users may import employees." "employees")
  else
    match upload with
    | none => (db, .flashRedirect "Please upload a file." "import_employees")
    | some up =>
      if up.filename = "" then (db, .flashRedirect "Please upload a file." "import_employees")
      else if endsWithXlsx up.filename = false then
        (db, .flashRedirect "Please upload a valid .xlsx file." "import_employees")
      else
        match up.content with
        | .error _ => (db, .flashRedirect "Unable to read Excel file." "import_employees")
        | .ok sheet =>
          match parse_employee_sheet sheet with
          | .error m => (db, .flashRedirect m "import_employees")
          | .ok emps =>
            match insertAll db.employees emps with
            | .error m =>
              (db, .flashRedirect ("Import failed (maybe duplicate SSN): " ++ m)
                "import_employees")
            | .ok es =>
              ({ db with employees := es },
                .flashRedirect ("Successfully imported " ++ toString emps.length ++ " employees.")
                  "employees")

/-! ## General helper lemmas -/

instance [DecidableEq ε] [DecidableEq α] : DecidableEq (Except ε α)
  | .ok x, .ok y =>
    if h : x = y then .isTrue (by rw [h]) else .isFalse (by simp [h])
  | .error x, .error y =>
    if h : x = y then .isTrue (by rw [h]) else .isFalse (by simp [h])
  | .ok _, .error _ => .isFalse (by simp)
  | .error _, .ok _ => .isFalse (by simp)

theorem string_append_right_cancel (a b c : String) (h : a ++ c = b ++ c) : a = b := by
  have hd : a.data ++ c.data = b.data ++ c.data := by
    rw [← String.data_append a c, ← String.data_append b c, h]
  have : a.data = b.data := List.append_cancel_right hd
  cases a
  cases b
  exact congrArg String.mk this

/-- Two row-numbered messages with distinct fixed prefixes are never equal. -/
theorem rowMsg_ne (p q : String) (idx : Nat) (hpq : p ≠ q) :
    p ++ toString idx ++ "." ≠ q ++ toString idx ++ "." := by
  intro h
  exact hpq (string_append_right_cancel p q (toString idx)
    (string_append_right_cancel (p ++ toString idx) (q ++ toString idx) "." h))

theorem find?_map_pres (f : α → α) (p : α → Bool) (hp : ∀ x, p (f x) = p x) :
    ∀ l : List α, (l.map f).find? p = (l.find? p).map f := by
  intro l
  induction l with
  | nil => simp
  | cons x xs ih =>
    by_cases hx : p x
    · rw [List.map_cons, List.find?_cons_of_pos _ (by rw [hp]; exact hx),
        List.find?_cons_of_pos _ hx]
      simp
    · rw [List.map_cons, List.find?_cons_of_neg _ (by rw [hp]; simpa using hx),
        List.find?_cons_of_neg _ (by simpa using hx), ih]

/-! ## Claim C1: managers overview employee count -/

/-- Database exhibiting the join fan-out of the managers query: one
department, one employee in it, two assignments of that employee. -/
def managersDB : DB :=
  { employees :=
      [{ ssn := "111220000"
         fname := "Alice"
         minit := none
         lname := "Ape"
         address := "12 Elm"
         sex := "F"
         salary := 1000
         superSsn := none
         dno := some 1
         bdate := none
         empdate := none }]
    departments := [{ dnumber := 1, dname := "Research", mgrSsn := none }]
    worksOn := [{ essn := "111220000", pno := 10, hours := 5 },
                { essn := "111220000", pno := 20, hours := 5 }]
    dependents := [] }

/-- C1: the claim that the managers overview's employee count equals the
number of employees of the department fails on the code: `COUNT(E.Ssn)` runs
over the rows of the `Employee × Works_On` left-join chain, so an employee
with two assignments is counted twice.  On `managersDB` the single department
row reports an employee count of 2 while exactly 1 employee references
department 1. -/
theorem managers_empCount_counts_join_rows :
    (managers managersDB).map ManagerRow.dnumber = [1] ∧
    (managers managersDB).map ManagerRow.empCount = [2] ∧
    (managersDB.employees.filter (fun e => e.dno == some 1)).length = 1 := by
  decide

/-! ## Claim C3: assignment upsert accumulates hours -/

/-- C3: `add_assignment`'s `INSERT ... ON CONFLICT DO UPDATE` statement adds
the submitted hours to an existing `(employee, project)` row and creates the
row otherwise; other keys are untouched, the row count grows only in the
fresh case, and two submissions of 5 hours on a fresh key leave one row with
10 hours. -/
theorem add_assignment_upsert_accumulates (ws : List WorksOn) (essn : String)
    (pno : Int) (h : Rat) :
    lookupHours (upsertWorksOn ws essn pno h) essn pno =
      some (match lookupHours ws essn pno with | some h0 => h0 + h | none => h) ∧
    (∀ e2 p2, ¬ (e2 = essn ∧ p2 = pno) →
      lookupHours (upsertWorksOn ws essn pno h) e2 p2 = lookupHours ws e2 p2) ∧
    (upsertWorksOn ws essn pno h).length =
      (if ws.any (fun w => w.essn == essn && w.pno == pno) then ws.length
       else ws.length + 1) ∧
    upsertWorksOn (upsertWorksOn [] essn pno 5) essn pno 5 =
      [{ essn := essn, pno := pno, hours := 10 }] := by
  have hkey : ∀ w : WorksOn,
      ((fun w : WorksOn =>
        if w.essn == essn && w.pno == pno then { w with hours := w.hours + h } else w) w).essn
        = w.essn ∧
      ((fun w : WorksOn =>
        if w.essn == essn && w.pno == pno then { w with hours := w.hours + h } else w) w).pno
        = w.pno := by
    intro w
    by_cases hw : w.essn == essn && w.pno == pno <;> simp [hw]
  refine ⟨?_, ?_, ?_, ?_⟩
  · cases hany : ws.any (fun w => w.essn == essn && w.pno == pno) with
    | true =>
      have hsome : (ws.find? (fun w => w.essn == essn && w.pno == pno)).isSome := by
        rw [List.find?_isSome]
        simpa [List.any_eq_true] using hany
      obtain ⟨w0, hw0⟩ := Option.isSome_iff_exists.mp hsome
      have hpw0 := List.find?_some hw0
      have hpw0b : (w0.essn == essn && w0.pno == pno) = true := hpw0
      simp only [lookupHours, upsertWorksOn, hany, if_true]
      rw [find?_map_pres _ _ (fun x => by
        rcases hkey x with ⟨h1, h2⟩
        rw [h1, h2]) ws]
      rw [hw0]
      have hb := hpw0b
      rw [Bool.and_eq_true] at hb
      simp [hpw0b, eq_of_beq hb.1, eq_of_beq hb.2]
    | false =>
      have hnone : ws.find? (fun w => w.essn == essn && w.pno == pno) = none := by
        rw [List.find?_eq_none]
        intro x hx
        rw [List.any_eq_false] at hany
        exact hany x hx
      simp only [lookupHours, upsertWorksOn, hany, if_false, Bool.false_eq_true]
      rw [List.find?_append, hnone]
      simp
  · intro e2 p2 hne
    cases hany : ws.any (fun w => w.essn == essn && w.pno == pno) with
    | true =>
      simp only [lookupHours, upsertWorksOn, hany, if_true]
      rw [find?_map_pres _ _ (fun x => by
        rcases hkey x with ⟨h1, h2⟩
        rw [h1, h2]) ws]
      cases hfq : ws.find? (fun w => w.essn == e2 && w.pno == p2) with
      | none => simp
      | some r =>
        have hqr := List.find?_some hfq
        have hqrb : (r.essn == e2 && r.pno == p2) = true := hqr
        have hkr : (r.essn == essn && r.pno == pno) = false := by
          rw [Bool.and_eq_true] at hqrb
          rcases hqrb with ⟨hre, hrp⟩
          cases hkt : (r.essn == essn && r.pno == pno) with
          | false => rfl
          | true =>
            rw [Bool.and_eq_true] at hkt
            rcases hkt with ⟨hre2, hrp2⟩
            exact absurd ⟨by rw [← eq_of_beq hre, eq_of_beq hre2],
              by rw [← eq_of_beq hrp, eq_of_beq hrp2]⟩ hne
        have hnr : ¬ (r.essn = essn ∧ r.pno = pno) := by
          intro hc
          rw [hc.1, hc.2] at hkr
          simp at hkr
        simp [hkr, hnr]
    | false =>
      simp only [lookupHours, upsertWorksOn, hany, if_false, Bool.false_eq_true]
      rw [List.find?_append]
      cases hfq : ws.find? (fun w => w.essn == e2 && w.pno == p2) with
      | none =>
        have hq : (({ essn := essn, pno := pno, hours := h } : WorksOn).essn == e2 &&
            ({ essn := essn, pno := pno, hours := h } : WorksOn).pno == p2) = false := by
          cases hkt : (({ essn := essn, pno := pno, hours := h } : WorksOn).essn == e2 &&
              ({ essn := essn, pno := pno, hours := h } : WorksOn).pno == p2) with
          | false => rfl
          | true =>
            rw [Bool.and_eq_true] at hkt
            rcases hkt with ⟨h1, h2⟩
            exact absurd ⟨(eq_of_beq h1).symm, (eq_of_beq h2).symm⟩ hne
        rw [List.find?_cons_of_neg _ (by simpa using hq)]
        simp
      | some r => simp
  · cases hany : ws.any (fun w => w.essn == essn && w.pno == pno) with
    | true => simp [upsertWorksOn, hany]
    | false => simp [upsertWorksOn, hany]
  · have h5 : (5 : Rat) + 5 = 10 := by norm_num
    simp [upsertWorksOn, h5]

/-- Witness for C3 at concrete inputs. -/
theorem add_assignment_upsert_accumulates_witness :
    ¬ (("222334444" : String) = "111223333" ∧ (7 : Int) = 10) ∧
    lookupHours (upsertWorksOn [] "111223333" 10 5) "222334444" 7 =
      lookupHours ([] : List WorksOn) "222334444" 7 :=
  ⟨by decide,
    (add_assignment_upsert_accumulates [] "111223333" 10 5).2.1 "222334444" 7 (by decide)⟩

/-! ## Claim C7: malformed numeric input is an uncaught fault -/

/-- Session of a logged-in administrator. -/
def adminSession : Session := { username := some "admin1", role := some "admin" }

/-- An empty database. -/
def emptyDB : DB := { employees := [], departments := [], worksOn := [], dependents := [] }

/-- C7: contrary to the claim, a non-numeric `hours` form field on the
assignment-add operation and a non-integer `dept` query parameter on the
employee overview are not turned into user-visible messages: the bare
`float(...)` / `int(...)` conversions raise uncaught `ValueError`s (an HTTP
500), though no mutation happens because the conversion precedes any database
write. -/
theorem malformed_numeric_input_is_uncaught :
    add_assignment adminSession emptyDB 1 "111223333" "abc" =
      (emptyDB, .fault "ValueError: could not convert string to float: abc") ∧
    home adminSession emptyDB "" "abc" "name_asc" =
      (.fault "ValueError: invalid literal for int() with base 10: abc" :
        HResult (List OverviewRow)) := by
  decide

/-! ## Claim C4: unknown sort tokens -/

theorem pyStrip_empty : pyStrip "" = "" := by decide

theorem deptFilterOf_empty : deptFilterOf "" = .ok none := by decide

/-- Two employees sharing the last name, stored with the descending first
name first: the order `E.Lname ASC` alone leaves them in table order, while
`E.Lname ASC, E.Fname ASC` swaps them. -/
def sortCexDB : DB :=
  { employees :=
      [{ ssn := "1"
         fname := "Zed"
         minit := none
         lname := "Smith"
         address := "2 Oak"
         sex := "M"
         salary := 1
         superSsn := none
         dno := none
         bdate := none
         empdate := none },
       { ssn := "2"
         fname := "Abe"
         minit := none
         lname := "Smith"
         address := "3 Oak"
         sex := "M"
         salary := 1
         superSsn := none
         dno := none
         bdate := none
         empdate := none }]
    departments := []
    worksOn := []
    dependents := [] }

/-- C4 counterexample: with the unknown sort token `"bogus"` the employee
overview does not return the rows in the name-ascending order, because the
fallback `ORDER BY` clause is `E.Lname ASC` without the `E.Fname` tiebreak:
on `sortCexDB` the two orders differ. -/
theorem home_unknown_sort_differs_from_name_asc :
    home adminSession sortCexDB "" "" "bogus" ≠
      home adminSession sortCexDB "" "" "name_asc" := by
  decide

/-- C4 amended: for every sort token outside the recognized set the employee
overview falls back to ordering by last name ascending only — the result is a
permutation of the unfiltered overview rows that is non-decreasing in last
name, but the first-name tiebreak of `name_asc` is not applied, so the order
can differ from name-ascending when two employees share a last name. -/
theorem home_unknown_sort_sorts_by_last_name_only (s : Session) (db : DB)
    (tok : String) (hlog : ensure_logged_in s = true)
    (htok : tok ≠ "name_asc" ∧ tok ≠ "name_desc" ∧ tok ≠ "hours_asc" ∧
      tok ≠ "hours_desc") :
    ∃ rows : List HomeRow,
      home s db "" "" tok = .page (rows.map toOverviewRow) ∧
      rows.Perm (homeBaseRows db "" none) ∧
      rows.Pairwise (fun a b => strLt b.e.lname a.e.lname = false) := by
  obtain ⟨h1, h2, h3, h4⟩ := htok
  have hkey : sortKeyOf tok = .lnameAsc := by
    simp [sortKeyOf, h1, h2, h3, h4]
  refine ⟨sqlOrderBy (homeLt .lnameAsc) (homeBaseRows db "" none), ?_, ?_, ?_⟩
  · simp [home, hlog, deptFilterOf_empty, pyStrip_empty, hkey]
  · exact sqlOrderBy_perm _ _
  · exact sqlOrderBy_pairwise (homeLt .lnameAsc)
      (fun a b hab => strLt_asymm _ _ hab)
      (fun a b c hab hbc => strLt_trans _ _ _ hab hbc)
      (homeBaseRows db "" none)

/-- Witness for C4's amended theorem at concrete inputs. -/
theorem home_unknown_sort_sorts_by_last_name_only_witness :
    ∃ rows : List HomeRow,
      home adminSession sortCexDB "" "" "bogus" = .page (rows.map toOverviewRow) ∧
      rows.Perm (homeBaseRows sortCexDB "" none) ∧
      rows.Pairwise (fun a b => strLt b.e.lname a.e.lname = false) :=
  home_unknown_sort_sorts_by_last_name_only adminSession sortCexDB "bogus"
    (by decide) (by decide)

/-! ## Claim C5: required-field check of the sheet parser -/

/-- Modelled from the spec's wording: a required field is empty when the cell
is `None` (blank cell) or the empty string.  Used only to compare the claim's
notion of emptiness with the code's truthiness test. -/
def specEmptyCell (c : Cell) : Bool := c == .null || c == .str ""

/-- A data row whose eight required fields are all present and non-empty, but
whose salary is the integer 0 (falsy in Python). -/
def c5ZeroSalaryRow : SheetRow :=
  { fname := .str "John"
    minit := .str "Q"
    lname := .str "Doe"
    ssn := .str "123456789"
    address := .str "1 Way"
    sex := .str "M"
    salary := .int 0
    superSsn := .null
    dno := .int 5
    bdate := .null
    empdate := .null }

/-- A sheet whose only data row is `c5ZeroSalaryRow`, under the exact
expected header. -/
def c5ZeroSalarySheet : Sheet :=
  { header := expectedHeader.map Cell.str, rows := [c5ZeroSalaryRow] }

/-- C5 counterexample: every one of the eight required fields of
`c5ZeroSalaryRow` is present and non-empty, yet `parse_employee_sheet` fails
with the missing-required-field error for row 2, because the code tests
Python truthiness and the integer 0 is falsy. -/
theorem parse_rejects_present_zero_valued_field :
    ([c5ZeroSalaryRow.fname, c5ZeroSalaryRow.minit, c5ZeroSalaryRow.lname,
      c5ZeroSalaryRow.ssn, c5ZeroSalaryRow.address, c5ZeroSalaryRow.sex,
      c5ZeroSalaryRow.salary, c5ZeroSalaryRow.dno].all
        (fun c => specEmptyCell c = false)) ∧
    parse_employee_sheet c5ZeroSalarySheet =
      .error "Missing required field on row 2." := by
  decide

theorem parseRows_error_at :
    ∀ (rows : List SheetRow) (start j : Nat) (r : SheetRow),
      rows.get? j = some r → requiredOk r = false →
      (∀ i ri, i < j → rows.get? i = some ri →
        ∃ p, parseRow (start + i) ri = .ok p) →
      parseRows start rows = .error (missingMsg (start + j)) := by
  intro rows
  induction rows with
  | nil =>
    intro start j r hj
    simp at hj
  | cons x xs ih =>
    intro start j r hj hfail hpre
    cases j with
    | zero =>
      have hx : x = r := by simpa using hj
      subst hx
      have hrow : parseRow start x = .error (missingMsg start) := by
        rw [parseRow, if_pos hfail]
      simp only [parseRows, hrow, Nat.add_zero]
    | succ k =>
      obtain ⟨p, hp⟩ := hpre 0 x (Nat.succ_pos k) rfl
      rw [Nat.add_zero] at hp
      have hrec : parseRows (start + 1) xs = .error (missingMsg (start + 1 + k)) := by
        refine ih (start + 1) k r (by simpa using hj) hfail ?_
        intro i ri hik hri
        obtain ⟨q, hq⟩ := hpre (i + 1) ri (by omega) (by simpa using hri)
        refine ⟨q, ?_⟩
        have harith : start + (i + 1) = start + 1 + i := by omega
        rw [← harith]
        exact hq
      have harith2 : start + 1 + k = start + (k + 1) := by omega
      simp only [parseRows, hp, hrec, harith2]

/-- C5 amended: `parse_employee_sheet` fails with the row-numbered
missing-required-field message (header counted as row 1, first data row as
row 2) exactly when one of the eight required fields is falsy in Python's
sense — blank, the empty string, or the number 0; a present but zero-valued
numeric field is thus rejected as missing, and rows whose eight required
fields are all truthy pass the required-field check. -/
theorem parse_missing_field_iff_falsy :
    (∀ (idx : Nat) (r : SheetRow),
      parseRow idx r = .error (missingMsg idx) ↔ requiredOk r = false) ∧
    (∀ (sheet : Sheet) (j : Nat) (r : SheetRow),
      sheet.header.map Cell.orEmpty = expectedHeader.map Cell.str →
      sheet.rows.get? j = some r → requiredOk r = false →
      (∀ i ri, i < j → sheet.rows.get? i = some ri →
        ∃ p, parseRow (2 + i) ri = .ok p) →
      parse_employee_sheet sheet = .error (missingMsg (2 + j))) := by
  constructor
  · intro idx r
    constructor
    · intro hp
      cases hreq : requiredOk r with
      | false => rfl
      | true =>
        exfalso
        rw [parseRow, if_neg (by simp [hreq])] at hp
        by_cases hm : (((Cell.pyStr r.minit).length == 1) = false)
        · rw [if_pos hm] at hp
          exact rowMsg_ne "Minit must be 1 character on row "
            "Missing required field on row " idx (by decide) (Except.error.inj hp)
        · rw [if_neg hm] at hp
          by_cases hs : (((Cell.pyStr r.sex).length == 1) = false)
          · rw [if_pos hs] at hp
            exact rowMsg_ne "Sex must be 1 character on row "
              "Missing required field on row " idx (by decide) (Except.error.inj hp)
          · rw [if_neg hs] at hp
            cases hsal : r.salary.pyInt with
            | none =>
              simp only [hsal] at hp
              exact rowMsg_ne "Salary must be integer on row "
                "Missing required field on row " idx (by decide) (Except.error.inj hp)
            | some sal =>
              simp only [hsal] at hp
              cases hdno : r.dno.pyInt with
              | none =>
                simp only [hdno] at hp
                exact rowMsg_ne "Dno must be integer on row "
                  "Missing required field on row " idx (by decide) (Except.error.inj hp)
              | some dn =>
                simp only [hdno] at hp
                exact Except.noConfusion hp
    · intro hreq
      rw [parseRow, if_pos hreq]
  · intro sheet j r hhdr hj hfail hpre
    rw [parse_employee_sheet, if_neg (by simp [hhdr])]
    exact parseRows_error_at sheet.rows 2 j r hj hfail hpre

/-- A fully valid data row for the C5 witness. -/
def c5GoodRow : SheetRow :=
  { fname := .str "Ada"
    minit := .str "B"
    lname := .str "Cook"
    ssn := .str "555667777"
    address := .str "4 Pine"
    sex := .str "F"
    salary := .str "1200"
    superSsn := .null
    dno := .str "5"
    bdate := .str "1990-05-05"
    empdate := .str "2020-01-01" }

/-- The parsed tuple `parseRow` produces for `c5GoodRow`. -/
def c5GoodParsed : ParsedEmp :=
  { fname := .str "Ada"
    minit := .str "B"
    lname := .str "Cook"
    ssn := .str "555667777"
    address := .str "4 Pine"
    sex := .str "F"
    salary := 1200
    superSsn := none
    dno := 5
    bdate := .str "1990-05-05"
    empdate := .str "2020-01-01" }

/-- A row with an empty (blank) last name. -/
def c5MissingLnameRow : SheetRow :=
  { fname := .str "Eve"
    minit := .str "C"
    lname := .null
    ssn := .str "888990000"
    address := .str "5 Elm"
    sex := .str "F"
    salary := .str "900"
    superSsn := .null
    dno := .str "4"
    bdate := .null
    empdate := .null }

/-- Sheet whose second data row (sheet row 3) has the empty last name. -/
def c5WitnessSheet : Sheet :=
  { header := expectedHeader.map Cell.str
    rows := [c5GoodRow, c5MissingLnameRow] }

/-- Witness for C5's amended theorem: the blank last name on the second data
row makes the import fail naming row 3. -/
theorem parse_missing_field_iff_falsy_witness :
    parse_employee_sheet c5WitnessSheet =
      .error (missingMsg (2 + 1)) :=
  parse_missing_field_iff_falsy.2 c5WitnessSheet 1 c5MissingLnameRow
    (by decide) (by decide) (by decide)
    (fun i ri hi hri => by
      have hi0 : i = 0 := by omega
      subst hi0
      have hri2 : ri = c5GoodRow := by
        simpa [c5WitnessSheet] using hri.symm
      subst hri2
      exact ⟨c5GoodParsed, by decide⟩)

/-! ## Claim C6: fields accepted by employee create -/

/-- Database with a single department for the create-operation claims. -/
def c6DB : DB :=
  { employees := []
    departments := [{ dnumber := 1, dname := "Research", mgrSsn := none }]
    worksOn := []
    dependents := [] }

/-- A form submission that also carries supervisor, birth date, and hire
date values. -/
def c6Form : List (String × String) :=
  [("ssn", "123456789"), ("fname", "John"), ("minit", "Q"), ("lname", "Doe"),
   ("address", "1 Way"), ("sex", "M"), ("salary", "50000"), ("dno", "1"),
   ("super_ssn", "999887777"), ("bdate", "1990-01-01"), ("empdate", "2020-01-01")]

/-- C6 counterexample: the create operation reads only eight form fields and
its `INSERT` names only those eight columns, so the submitted supervisor
reference, birth date, and hire date of `c6Form` are not stored — the created
employee carries NULL in all three columns. -/
theorem add_employee_drops_submitted_fields :
    formGet c6Form "super_ssn" = "999887777" ∧
    formGet c6Form "bdate" = "1990-01-01" ∧
    formGet c6Form "empdate" = "2020-01-01" ∧
    (add_employee adminSession c6DB c6Form).1.employees.map
      (fun e => (e.superSsn, e.bdate, e.empdate)) = [(none, none, none)] ∧
    (add_employee adminSession c6DB c6Form).2 = .redirect "employees" := by
  decide

/-- C6 amended: an admin create persists exactly the eight submitted fields
(first name, middle initial — normalised to NULL when empty — last name, id,
address, sex, salary, department reference); the supervisor reference, birth
date, and hire date are not inputs of the operation and are stored as NULL. -/
theorem add_employee_persists_eight_fields (s : Session) (db : DB)
    (form : List (String × String)) (sal dn : Int)
    (hlog : ensure_logged_in s = true) (hadm : is_admin s = true)
    (hsal : parseInt? (formGet form "salary") = some sal)
    (hdn : parseInt? (formGet form "dno") = some dn)
    (hdup : db.employees.any (fun x => x.ssn == formGet form "ssn") = false)
    (hfk : db.departments.any (fun d => d.dnumber == dn) = true) :
    add_employee s db form =
      ({ db with employees := db.employees ++
          [{ ssn := formGet form "ssn"
             fname := formGet form "fname"
             minit := if formGet form "minit" = "" then none
                      else some (formGet form "minit")
             lname := formGet form "lname"
             address := formGet form "address"
             sex := formGet form "sex"
             salary := sal
             superSsn := none
             dno := some dn
             bdate := none
             empdate := none }] },
        .redirect "employees") := by
  have hins : insertEmployeeForm db.employees db.departments
      (formGet form "ssn") (formGet form "fname")
      (if formGet form "minit" = "" then none else some (formGet form "minit"))
      (formGet form "lname") (formGet form "address") (formGet form "sex")
      (formGet form "salary") (formGet form "dno") =
      .ok (db.employees ++
        [{ ssn := formGet form "ssn"
           fname := formGet form "fname"
           minit := if formGet form "minit" = "" then none
                    else some (formGet form "minit")
           lname := formGet form "lname"
           address := formGet form "address"
           sex := formGet form "sex"
           salary := sal
           superSsn := none
           dno := some dn
           bdate := none
           empdate := none }]) := by
    rw [insertEmployeeForm]
    simp only [hsal, hdn]
    rw [if_neg (by simp [hdup]), if_neg (by simp [hfk])]
  simp only [add_employee, hlog, hadm]
  simp only [Bool.true_eq_false, if_false, hins]

/-- Witness for C6's amended theorem at `c6DB` and `c6Form`. -/
theorem add_employee_persists_eight_fields_witness :
    add_employee adminSession c6DB c6Form =
      ({ c6DB with employees := c6DB.employees ++
          [{ ssn := formGet c6Form "ssn"
             fname := formGet c6Form "fname"
             minit := if formGet c6Form "minit" = "" then none
                      else some (formGet c6Form "minit")
             lname := formGet c6Form "lname"
             address := formGet c6Form "address"
             sex := formGet c6Form "sex"
             salary := 50000
             superSsn := none
             dno := some 1
             bdate := none
             empdate := none }] },
        .redirect "employees") :=
  add_employee_persists_eight_fields adminSession c6DB c6Form 50000 1
    (by decide) (by decide) (by decide) (by decide) (by decide) (by decide)

/-! ## Claim C8: login failures are indistinguishable -/

/-- C8: a login attempt with an existing username but failing password check
and an attempt with a username that matches no credential record produce the
identical flash message and redirect, and neither establishes a session
identity. -/
theorem login_failures_indistinguishable (checkHash : String → String → Bool)
    (users : List AppUser) (s : Session) (u1 p1 u2 p2 : String) (rec : AppUser)
    (hs : s.username = none)
    (h1 : users.find? (fun u => u.username == u1) = some rec)
    (h2 : checkHash rec.passwordHash p1 = false)
    (h3 : users.find? (fun u => u.username == u2) = none) :
    login checkHash users s u1 p1 =
      (s, .flashRedirect "Invalid username or password." "login") ∧
    login checkHash users s u2 p2 =
      (s, .flashRedirect "Invalid username or password." "login") ∧
    (login checkHash users s u1 p1).1.username = none ∧
    (login checkHash users s u2 p2).1.username = none := by
  have e1 : login checkHash users s u1 p1 =
      (s, .flashRedirect "Invalid username or password." "login") := by
    rw [login, h1]
    simp [h2]
  have e2 : login checkHash users s u2 p2 =
      (s, .flashRedirect "Invalid username or password." "login") := by
    rw [login, h3]
  exact ⟨e1, e2, by rw [e1]; exact hs, by rw [e2]; exact hs⟩

/-- One credential record used by the C8 witness. -/
def c8Users : List AppUser :=
  [{ id := "7", username := "alice", passwordHash := "hash-of-secret", role := "admin" }]

/-- Witness for C8: wrong password for `alice` versus unknown `bob`, under an
equality-test stand-in for the hash check. -/
theorem login_failures_indistinguishable_witness :
    login (fun stored given => stored == given) c8Users ⟨none, none⟩ "alice" "wrong" =
      (⟨none, none⟩, .flashRedirect "Invalid username or password." "login") ∧
    login (fun stored given => stored == given) c8Users ⟨none, none⟩ "bob" "pw" =
      (⟨none, none⟩, .flashRedirect "Invalid username or password." "login") ∧
    (login (fun stored given => stored == given) c8Users ⟨none, none⟩ "alice" "wrong").1.username = none ∧
    (login (fun stored given => stored == given) c8Users ⟨none, none⟩ "bob" "pw").1.username = none :=
  login_failures_indistinguishable (fun stored given => stored == given) c8Users
    ⟨none, none⟩ "alice" "wrong" "bob" "pw"
    { id := "7", username := "alice", passwordHash := "hash-of-secret", role := "admin" }
    rfl (by decide) (by decide) (by decide)

/-! ## Claim C9: the viewer role cannot mutate -/

/-- C9: every mutating handler checked for a logged-in viewer session leaves
the database unchanged and answers with its admin-only flash message. -/
theorem viewer_cannot_mutate (s : Session) (db : DB) (u : String)
    (hu : s.username = some u) (hv : s.role = some "viewer")
    (pid : Int) (essnF hoursF ssn addr salF dnoF : String)
    (form : List (String × String)) (upload : Option Upload) :
    add_assignment s db pid essnF hoursF =
      (db, .flashRedirect "Only admin users may modify assignments." "project_details") ∧
    add_employee s db form =
      (db, .flashRedirect "Only admin users may add employees." "employees") ∧
    edit_employee s db ssn addr salF dnoF =
      (db, .flashRedirect "Only admin users may edit employees." "employees") ∧
    delete_employee s db ssn =
      (db, .flashRedirect "Only admin users may delete employees." "employees") ∧
    import_employees s db upload =
      (db, .flashRedirect "Only admin users may import employees." "employees") := by
  have hlog : ensure_logged_in s = true := by simp [ensure_logged_in, hu]
  have hadm : is_admin s = false := by simp [is_admin, hv]
  refine ⟨?_, ?_, ?_, ?_, ?_⟩ <;>
    simp [add_assignment, add_employee, edit_employee, delete_employee,
      import_employees, hlog, hadm]

/-- A logged-in viewer session. -/
def viewerSession : Session := { username := some "viewer1", role := some "viewer" }

/-- Witness for C9 with a concrete viewer session over the empty database. -/
theorem viewer_cannot_mutate_witness :
    add_assignment viewerSession emptyDB 1 "111223333" "4" =
      (emptyDB, .flashRedirect "Only admin users may modify assignments." "project_details") ∧
    add_employee viewerSession emptyDB [] =
      (emptyDB, .flashRedirect "Only admin users may add employees." "employees") ∧
    edit_employee viewerSession emptyDB "111223333" "5 Oak" "1" "1" =
      (emptyDB, .flashRedirect "Only admin users may edit employees." "employees") ∧
    delete_employee viewerSession emptyDB "111223333" =
      (emptyDB, .flashRedirect "Only admin users may delete employees." "employees") ∧
    import_employees viewerSession emptyDB none =
      (emptyDB, .flashRedirect "Only admin users may import employees." "employees") :=
  viewer_cannot_mutate viewerSession emptyDB "viewer1" rfl rfl 1 "111223333" "4"
    "111223333" "5 Oak" "1" "1" [] none

/-! ## Claim C10: project page omits employees with a null department -/

/-- C10: an employee who has an assignment on the project but whose
department reference is NULL never appears in the project detail page's
assigned-employees listing, because that listing inner-joins to `Department`
on the employee's `Dno`. -/
theorem project_details_omits_null_department (db : DB) (pid : Int)
    (essn : String) (w : WorksOn) (hw : w ∈ db.worksOn) (hwp : w.pno = pid)
    (hwe : w.essn = essn)
    (hnull : ∀ e ∈ db.employees, e.ssn = essn → e.dno = none) :
    ∀ row ∈ project_details_employees db pid, row.ssn ≠ essn := by
  intro row hrow hssn
  have hrow2 : row ∈ (db.worksOn.filter (fun w => w.pno == pid)).flatMap (fun w =>
      (db.employees.filter (fun e => e.ssn == w.essn)).flatMap (fun e =>
        (db.departments.filter (fun d => e.dno == some d.dnumber)).map (fun d =>
          ({ ssn := e.ssn, fullNameCol := fullName e, dname := d.dname,
             hours := w.hours } : ProjDetailRow)))) :=
    (sqlOrderBy_perm _ _).subset hrow
  rw [List.mem_flatMap] at hrow2
  obtain ⟨w1, hw1, hrow3⟩ := hrow2
  rw [List.mem_flatMap] at hrow3
  obtain ⟨e, he, hrow4⟩ := hrow3
  rw [List.mem_map] at hrow4
  obtain ⟨d, hd, hrowEq⟩ := hrow4
  have hessn : e.ssn = essn := by rw [← hrowEq] at hssn; exact hssn
  have hedno : e.dno = none := hnull e (List.mem_of_mem_filter he) hessn
  have hcond : (e.dno == some d.dnumber) = true := (List.mem_filter.mp hd).2
  rw [hedno] at hcond
  simp at hcond

/-- Database for the C10 witness: one assignment of an employee whose
department is NULL. -/
def c10DB : DB :=
  { employees :=
      [{ ssn := "777778888"
         fname := "Noel"
         minit := none
         lname := "Dept"
         address := "9 Fir"
         sex := "M"
         salary := 10
         superSsn := none
         dno := none
         bdate := none
         empdate := none }]
    departments := [{ dnumber := 1, dname := "Research", mgrSsn := none }]
    worksOn := [{ essn := "777778888", pno := 3, hours := 2 }]
    dependents := [] }

/-- Witness for C10 on `c10DB`: no listed row carries the assigned
employee's id. -/
theorem project_details_omits_null_department_witness :
    (project_details_employees c10DB 3).all
      (fun row => decide (row.ssn ≠ "777778888")) = true := by
  rw [List.all_eq_true]
  intro row hrow
  simpa using project_details_omits_null_department c10DB 3 "777778888"
    { essn := "777778888", pno := 3, hours := 2 }
    (by decide) rfl rfl
    (fun e he hssn => by
      have he2 : e = c10DB.employees.head (by decide) := by
        simpa [c10DB] using he
      rw [he2]
      rfl)
    row hrow

/-! ## Claim C2: all-or-nothing import -/

/-- C2: an admin import of a well-formed `.xlsx` upload ends in exactly one
of three ways — success with the batch appended, a parse failure, or a
persistence failure — and in both failure cases the returned store is the
original `db` (zero persisted rows, the transaction having rolled back), with
the parse failure flashing the `ValueError` text and the persistence failure
flashing the distinct `Import failed` message. -/
theorem import_employees_all_or_nothing (s : Session) (db : DB) (fn : String)
    (sheet : Sheet) (hlog : ensure_logged_in s = true) (hadm : is_admin s = true)
    (hfn : fn ≠ "") (hx : endsWithXlsx fn = true) :
    (∃ (es : List Employee) (n : Nat), import_employees s db (some ⟨fn, .ok sheet⟩) =
        ({ db with employees := es },
         .flashRedirect ("Successfully imported " ++ toString n ++ " employees.")
           "employees")) ∨
    (∃ m, parse_employee_sheet sheet = .error m ∧
        import_employees s db (some ⟨fn, .ok sheet⟩) =
          (db, .flashRedirect m "import_employees")) ∨
    (∃ emps m, parse_employee_sheet sheet = .ok emps ∧
        insertAll db.employees emps = .error m ∧
        import_employees s db (some ⟨fn, .ok sheet⟩) =
          (db, .flashRedirect ("Import failed (maybe duplicate SSN): " ++ m)
            "import_employees")) := by
  cases hparse : parse_employee_sheet sheet with
  | error m =>
    refine Or.inr (Or.inl ⟨m, rfl, ?_⟩)
    simp [import_employees, hlog, hadm, hfn, hx, hparse]
  | ok emps =>
    cases hins : insertAll db.employees emps with
    | error m =>
      refine Or.inr (Or.inr ⟨emps, m, rfl, hins, ?_⟩)
      simp [import_employees, hlog, hadm, hfn, hx, hparse, hins]
    | ok es =>
      refine Or.inl ⟨es, emps.length, ?_⟩
      simp [import_employees, hlog, hadm, hfn, hx, hparse, hins]

/-- Database holding one employee whose id collides with the second sheet
row of the C2 witness. -/
def c2DB : DB :=
  { employees :=
      [{ ssn := "111111111"
         fname := "Old"
         minit := none
         lname := "Hand"
         address := "6 Ash"
         sex := "M"
         salary := 10
         superSsn := none
         dno := some 1
         bdate := none
         empdate := none }]
    departments := [{ dnumber := 1, dname := "Research", mgrSsn := none }]
    worksOn := []
    dependents := [] }

/-- A valid sheet whose first data row is fresh and whose second duplicates
the id already stored in `c2DB`: the batch fails partway. -/
def c2Sheet : Sheet :=
  { header := expectedHeader.map Cell.str
    rows :=
      [{ fname := .str "New", minit := .str "A", lname := .str "Comer",
         ssn := .str "222222222", address := .str "7 Ash", sex := .str "F",
         salary := .str "100", superSsn := .null, dno := .str "1",
         bdate := .null, empdate := .null },
       { fname := .str "Dup", minit := .str "B", lname := .str "Licate",
         ssn := .str "111111111", address := .str "8 Ash", sex := .str "M",
         salary := .str "200", superSsn := .null, dno := .str "1",
         bdate := .null, empdate := .null }] }

/-- Witness for C2 on `c2DB` and `c2Sheet`. -/
theorem import_employees_all_or_nothing_witness :
    (∃ (es : List Employee) (n : Nat), import_employees adminSession c2DB (some ⟨"staff.xlsx", .ok c2Sheet⟩) =
        ({ c2DB with employees := es },
         .flashRedirect ("Successfully imported " ++ toString n ++ " employees.")
           "employees")) ∨
    (∃ m, parse_employee_sheet c2Sheet = .error m ∧
        import_employees adminSession c2DB (some ⟨"staff.xlsx", .ok c2Sheet⟩) =
          (c2DB, .flashRedirect m "import_employees")) ∨
    (∃ emps m, parse_employee_sheet c2Sheet = .ok emps ∧
        insertAll c2DB.employees emps = .error m ∧
        import_employees adminSession c2DB (some ⟨"staff.xlsx", .ok c2Sheet⟩) =
          (c2DB, .flashRedirect ("Import failed (maybe duplicate SSN): " ++ m)
            "import_employees")) :=
  import_employees_all_or_nothing adminSession c2DB "staff.xlsx" c2Sheet
    (by decide) (by decide) (by decide) (by decide)

end CompanyApp
